import Mathlib

/-!
Shallow embedding of the GoalTracker backend (`src/backend/app.py`).

The service exposes five HTTP handlers over a single `goals` table in a
relational store.  This file models the table, the schema installed by
`_init_db` (in particular the `update_goal_updated_at` trigger, which fires
`BEFORE UPDATE` only, stamping `updated_at := NOW()`), and the four
data-touching handlers `sync_goals`, `create_goal`, `update_goal`,
`delete_goal` as pure Lean functions.

Modelling decisions, each traceable to the source:
* Timestamps are `Nat` (instants since the Unix epoch; the epoch itself
  is `0`).  ISO-8601 parsing (`datetime.fromisoformat`) is abstracted as a
  parameter `parse : String → Option Nat` (`none` = `ValueError`); the
  `Z`-suffix normalisation that the handlers perform on the string *before*
  parsing is modelled concretely (`normalizeZ`), following the Python
  `s.upper().endswith("Z")` / `s[:-1] + "+00:00"` idiom.
* The store connection is modelled by a flag `connOk : Bool`
  (`get_db_connection` returning a connection or `None`), and every handler
  result records whether a connection object was created (`connOpened`),
  whether the `finally` block that closes it was reached (`connClosed`),
  and whether any SQL against the `goals` table was executed (`queryRan`).
* `now : Nat` is the server clock at the instant the handler touches the
  store (the value of `NOW()` inside the transaction, and of
  `datetime.now(timezone.utc)` for `sync_goals`' `server_timestamp`).
* The `goals` table is a `List Goal`.  The SQL `ORDER BY updated_at` of
  `sync_goals` is modelled with `List.insertionSort` on `updated_at`
  (any sort is a faithful model: the spec leaves tie order open).
* In `update_goal` an unparseable `updated_at` raises `ValueError` outside
  the handler's `try`, so the exception escapes the handler; Flask turns it
  into a 500 response, and the `finally` that closes the connection is
  never reached.  We model that path as `status 500`, `connClosed = false`.
-/

/-- An instant on the server/store clock, counted from the Unix epoch. -/
abbrev Timestamp := Nat

/-- The Unix epoch, the default sync lower bound
(`datetime(1970, 1, 1, tzinfo=timezone.utc)`). -/
def epoch : Timestamp := 0

/-- A row of the `goals` table created by `_init_db`:
`id UUID PRIMARY KEY, name TEXT, target_value INTEGER,
current_value INTEGER, updated_at TIMESTAMP WITH TIME ZONE`. -/
structure Goal where
  id : String
  name : String
  target_value : Int
  current_value : Int
  updated_at : Timestamp
deriving DecidableEq

/-- The JSON body of a `POST /goals` request; `none` marks a key that is
absent from the JSON object (`field in data` is false).  `updated_at` is the
raw ISO-8601 string as sent by the client. -/
structure CreateBody where
  id : Option String := none
  name : Option String := none
  target_value : Option Int := none
  current_value : Option Int := none
  updated_at : Option String := none
deriving DecidableEq

/-- The JSON body of a `PUT /goals/<id>` request: any subset of the
`allowed_fields = [name, target_value, current_value, updated_at]`, plus
`extra`, the keys of the object that are outside `allowed_fields` (the
handler's field-collection loop never reads them). -/
structure UpdateBody where
  name : Option String := none
  target_value : Option Int := none
  current_value : Option Int := none
  updated_at : Option String := none
  extra : List String := []
deriving DecidableEq

/-- Python `not data` on the decoded JSON object: true when the request has
no JSON object or the object is empty (no keys at all). -/
def UpdateBody.isEmptyDict (b : UpdateBody) : Bool :=
  b.name.isNone && b.target_value.isNone && b.current_value.isNone &&
  b.updated_at.isNone && b.extra.isEmpty

/-- What a handler hands back to Flask, together with the store state it
leaves behind and the connection bookkeeping for that request. -/
structure HandlerResult where
  /-- HTTP status code of the response. -/
  status : Nat
  /-- The `error` field of the JSON body, when the response carries one. -/
  errMsg : Option String := none
  /-- The single goal record returned (create / update success). -/
  retGoal : Option Goal := none
  /-- The `goals` array returned (sync success). -/
  retGoals : List Goal := []
  /-- The `server_timestamp` field returned (sync success). -/
  serverTimestamp : Option Timestamp := none
  /-- The `goals` table after the request (post commit / rollback). -/
  db : List Goal
  /-- A connection object was obtained from `get_db_connection`. -/
  connOpened : Bool := false
  /-- The `finally` block ran and closed cursor and connection. -/
  connClosed : Bool := false
  /-- Some SQL statement against `goals` was executed on the cursor. -/
  queryRan : Bool := false
deriving DecidableEq

/-- The `Z`-suffix normalisation every handler applies to a timestamp string
before `datetime.fromisoformat`:
`s[:-1] + "+00:00" if s.upper().endswith("Z") else s`. -/
def normalizeZ (s : String) : String :=
  if (s.data.getLast?.map Char.toUpper) = some 'Z' then
    String.mk s.data.dropLast ++ "+00:00"
  else s

/-- Ordering of rows by their sync cursor, the SQL `ORDER BY updated_at`. -/
def goalLE (a b : Goal) : Prop := a.updated_at ≤ b.updated_at

instance : DecidableRel goalLE := fun a b => Nat.decLe a.updated_at b.updated_at

instance : IsTotal Goal goalLE := ⟨fun a b => Nat.le_total a.updated_at b.updated_at⟩

instance : IsTrans Goal goalLE := ⟨fun _ _ _ h h' => Nat.le_trans h h'⟩

/-- The lower bound `sync_goals` queries with: the epoch when the
`last_sync_timestamp` query parameter is missing or empty (Python
`if last_sync_str:` treats `""` as absent), else the `Z`-normalised,
parsed parameter; `none` models the `ValueError` branch. -/
def syncLowerBound (parse : String → Option Timestamp)
    (lastSyncParam : Option String) : Option Timestamp :=
  match lastSyncParam with
  | none => some epoch
  | some s =>
    if s = "" then some epoch
    else parse (normalizeZ s)

/-- `GET /sync` (`sync_goals` in `app.py`).  Validation of
`last_sync_timestamp` happens before the connection is acquired; a missing
or empty parameter falls back to the epoch; the query returns the rows with
`updated_at > last_sync_timestamp` ordered by `updated_at`, and the
response adds `server_timestamp = datetime.now(timezone.utc)`. -/
def sync_goals (parse : String → Option Timestamp) (now : Timestamp)
    (connOk : Bool) (db : List Goal) (lastSyncParam : Option String) :
    HandlerResult :=
  match syncLowerBound parse lastSyncParam with
  | none =>
    { status := 400, errMsg := some "Invalid timestamp format. Please use ISO 8601.",
      db := db }
  | some ts =>
    if connOk then
      { status := 200,
        retGoals := List.insertionSort goalLE
          (db.filter fun g => ts < g.updated_at),
        serverTimestamp := some now, db := db,
        connOpened := true, connClosed := true, queryRan := true }
    else
      { status := 500, errMsg := some "Database connection failed", db := db }

/-- The diagnostic text psycopg2 attaches to the `IntegrityError` raised by
a duplicate-key `INSERT` into `goals` (PostgreSQL's message names the
constraint and the offending key). -/
def integrityDiag (goalId : String) : String :=
  "duplicate key value violates unique constraint \"goals_pkey\"\nDETAIL:  Key (id)=("
    ++ goalId ++ ") already exists."

/-- `POST /goals` (`create_goal` in `app.py`).  The connection is acquired
*before* the body is validated, and the two validation-failure returns do
not pass through the `try`/`finally`, so they leave the connection open.
The `INSERT` supplies all five columns, including the parsed client
`updated_at`; the `update_goal_updated_at` trigger installed by `_init_db`
fires `BEFORE UPDATE` only, so the inserted row keeps the client timestamp.
A `ValueError` from `fromisoformat` is raised inside the `try` while the
statement's arguments are built, and is caught by the generic
`except Exception` branch, yielding a 500. -/
def create_goal (parse : String → Option Timestamp) (now : Timestamp)
    (connOk : Bool) (db : List Goal) (body : Option CreateBody) :
    HandlerResult :=
  if !connOk then
    { status := 500, errMsg := some "Database connection failed", db := db }
  else
    match body with
    | none =>
      { status := 400, errMsg := some "Request must contain JSON data",
        db := db, connOpened := true }
    | some b =>
      match b.id, b.name, b.target_value, b.current_value, b.updated_at with
      | some i, some nm, some tv, some cv, some ua =>
        match parse (normalizeZ ua) with
        | none =>
          { status := 500, errMsg := some "An internal error occurred",
            db := db, connOpened := true, connClosed := true }
        | some ts =>
          if db.any (fun g => g.id = i) then
            { status := 409,
              errMsg := some ("Integrity error: " ++ integrityDiag i),
              db := db, connOpened := true, connClosed := true, queryRan := true }
          else
            let g : Goal :=
              { id := i, name := nm, target_value := tv,
                current_value := cv, updated_at := ts }
            { status := 201, retGoal := some g, db := db ++ [g],
              connOpened := true, connClosed := true, queryRan := true }
      | _, _, _, _, _ =>
        { status := 400, errMsg := some "Missing required fields",
          db := db, connOpened := true }

/-- The effect of `UPDATE goals SET <supplied fields> WHERE id = ...` on one
matching row: the supplied fields are written, then the
`update_goal_updated_at` trigger overwrites `updated_at` with `NOW()`
regardless of whether the caller supplied one. -/
def applyUpdate (b : UpdateBody) (now : Timestamp) (g : Goal) : Goal :=
  { g with
    name := b.name.getD g.name,
    target_value := b.target_value.getD g.target_value,
    current_value := b.current_value.getD g.current_value,
    updated_at := now }

/-- `update_fields` is non-empty: at least one allowed field is present. -/
def hasUpdatableField (b : UpdateBody) : Bool :=
  b.name.isSome || b.target_value.isSome || b.current_value.isSome ||
  b.updated_at.isSome

/-- A supplied `updated_at` fails `datetime.fromisoformat` in the
field-collection loop of `update_goal` (raising `ValueError` outside the
handler's `try` block). -/
def updParseFailed (parse : String → Option Timestamp) (b : UpdateBody) : Bool :=
  match b.updated_at with
  | some s => (parse (normalizeZ s)).isNone
  | none => false

/-- `all(field in data for field in required_fields)` of `create_goal`:
each of the five required keys is present in the JSON object. -/
def createFieldsPresent (b : CreateBody) : Bool :=
  b.id.isSome && b.name.isSome && b.target_value.isSome &&
  b.current_value.isSome && b.updated_at.isSome

/-- `PUT /goals/<id>` (`update_goal` in `app.py`).  The connection is
acquired before validation; the empty-body, empty-dict and no-fields
returns leave it open.  The field-collection loop parses a supplied
`updated_at` *outside* the `try`, so an unparseable value raises out of the
handler: Flask answers 500 and the connection is never closed.  The
`UPDATE ... RETURNING` row reflects the trigger's re-stamped `updated_at`;
a zero-row update (after `conn.commit()`) yields 404. -/
def update_goal (parse : String → Option Timestamp) (now : Timestamp)
    (connOk : Bool) (db : List Goal) (goalId : String)
    (body : Option UpdateBody) : HandlerResult :=
  if !connOk then
    { status := 500, errMsg := some "Database connection failed", db := db }
  else
    match body with
    | none =>
      { status := 400, errMsg := some "Request must contain JSON data",
        db := db, connOpened := true }
    | some b =>
      if b.isEmptyDict then
        { status := 400, errMsg := some "Request must contain JSON data",
          db := db, connOpened := true }
      else
        if updParseFailed parse b then
          { status := 500, db := db, connOpened := true }
        else if !hasUpdatableField b then
          { status := 400, errMsg := some "No fields provided for update",
            db := db, connOpened := true }
        else if db.any (fun g => g.id = goalId) then
          { status := 200,
            retGoal := (db.find? (fun g => g.id = goalId)).map (applyUpdate b now),
            db := db.map (fun g => if g.id = goalId then applyUpdate b now g else g),
            connOpened := true, connClosed := true, queryRan := true }
        else
          { status := 404, errMsg := some "Goal not found", db := db,
            connOpened := true, connClosed := true, queryRan := true }

/-- `DELETE /goals/<id>` (`delete_goal` in `app.py`): delete the matching
rows, commit, then report 404 when `cursor.rowcount == 0`, else 204. -/
def delete_goal (connOk : Bool) (db : List Goal) (goalId : String) :
    HandlerResult :=
  if !connOk then
    { status := 500, errMsg := some "Database connection failed", db := db }
  else
    let remaining := db.filter fun g => ¬ g.id = goalId
    if db.countP (fun g => g.id = goalId) = 0 then
      { status := 404, errMsg := some "Goal not found", db := remaining,
        connOpened := true, connClosed := true, queryRan := true }
    else
      { status := 204, db := remaining,
        connOpened := true, connClosed := true, queryRan := true }

/-- A concrete stand-in for `datetime.fromisoformat` used by the closed
witness and counterexample theorems: it accepts a handful of literal
ISO-8601 strings. -/
def testParse (s : String) : Option Timestamp :=
  if s = "1970-01-01T00:00:00+00:00" then some 0
  else if s = "1970-01-01T00:00:06+00:00" then some 6
  else if s = "1970-01-01T00:00:10+00:00" then some 10
  else if s = "1970-01-01T00:00:50+00:00" then some 50
  else if s = "2999-01-01T00:00:00+00:00" then some 1000000
  else none

/-- A well-formed create body whose client timestamp parses to instant 10. -/
def runBody : CreateBody :=
  { id := some "a1", name := some "Run", target_value := some 100,
    current_value := some 0, updated_at := some "1970-01-01T00:00:10Z" }

/-- A well-formed create body whose client timestamp is exactly the epoch. -/
def epochBody : CreateBody :=
  { id := some "e1", name := some "Epoch", target_value := some 1,
    current_value := some 0, updated_at := some "1970-01-01T00:00:00Z" }

/-- A well-formed create body whose client timestamp lies far in the future
(instant 1000000) relative to the concrete server clocks used below. -/
def futureBody : CreateBody :=
  { id := some "f1", name := some "Future", target_value := some 1,
    current_value := some 0, updated_at := some "2999-01-01T00:00:00Z" }

/-- A create body missing the required `target_value` key. -/
def missingBody : CreateBody :=
  { id := some "m1", name := some "NoTarget",
    current_value := some 0, updated_at := some "1970-01-01T00:00:10Z" }

/-- The row `runBody` produces (client timestamp 10 kept on insert). -/
def gRun : Goal :=
  { id := "a1", name := "Run", target_value := 100, current_value := 0,
    updated_at := 10 }

/-- The row `epochBody` produces (client timestamp 0 kept on insert). -/
def gEpoch : Goal :=
  { id := "e1", name := "Epoch", target_value := 1, current_value := 0,
    updated_at := 0 }

/-- A create body whose five keys are all present but whose `updated_at`
string is not ISO-8601 (so `fromisoformat` raises `ValueError`). -/
def garbageBody : CreateBody :=
  { id := some "g1", name := some "Bad", target_value := some 1,
    current_value := some 0, updated_at := some "not-a-timestamp" }

/-! ### Helper lemmas about the sync handler -/

/-- When the `last_sync_timestamp` parameter resolves to a bound `ts` and
the connection succeeds, `sync_goals` answers 200 with the sorted strict
suffix of the table. -/
lemma sync_success_eq (parse : String → Option Timestamp) (now : Timestamp)
    (db : List Goal) (ts : Timestamp) (param : Option String)
    (h : syncLowerBound parse param = some ts) :
    sync_goals parse now true db param =
      { status := 200,
        retGoals := List.insertionSort goalLE
          (db.filter fun g => ts < g.updated_at),
        serverTimestamp := some now, db := db,
        connOpened := true, connClosed := true, queryRan := true } := by
  unfold sync_goals
  rw [h]
  rfl

/-- When the parameter fails to parse, `sync_goals` answers 400 before any
store interaction, whatever the connection state. -/
lemma sync_fail_eq (parse : String → Option Timestamp) (now : Timestamp)
    (connOk : Bool) (db : List Goal) (param : Option String)
    (h : syncLowerBound parse param = none) :
    sync_goals parse now connOk db param =
      { status := 400,
        errMsg := some "Invalid timestamp format. Please use ISO 8601.",
        db := db } := by
  unfold sync_goals
  rw [h]

/-- When the bound parses but the connection fails, `sync_goals` answers
500 with nothing opened. -/
lemma sync_noconn_eq (parse : String → Option Timestamp) (now : Timestamp)
    (db : List Goal) (ts : Timestamp) (param : Option String)
    (h : syncLowerBound parse param = some ts) :
    sync_goals parse now false db param =
      { status := 500, errMsg := some "Database connection failed",
        db := db } := by
  unfold sync_goals
  rw [h]
  rfl

/-- Membership in a sorted strict suffix of the table. -/
lemma mem_sorted_filter (ts : Timestamp) (db : List Goal) (g : Goal) :
    g ∈ List.insertionSort goalLE (db.filter fun g' => ts < g'.updated_at) ↔
      g ∈ db ∧ ts < g.updated_at := by
  rw [List.mem_insertionSort, List.mem_filter]
  simp

/-! ## C1 — `updated_at` on create -/

/-- C1 (counterexample).  The claim says every valid create stores and
returns an `updated_at` assigned by the store at write time, superseding
the client-supplied value and `≥` the request's arrival time.  Here a valid
create arriving with the server clock at instant 5000 and a client
timestamp parsing to 10 succeeds (201), yet both the stored row and the
returned record carry `updated_at = 10`, the client value, which is far
below the arrival time: the `update_goal_updated_at` trigger fires on
`UPDATE` only, so nothing re-stamps the `INSERT`. -/
theorem create_updated_at_cex :
    (create_goal testParse 5000 true [] (some runBody)).status = 201 ∧
    (create_goal testParse 5000 true [] (some runBody)).retGoal.map
      (fun g => g.updated_at) = some 10 ∧
    (create_goal testParse 5000 true [] (some runBody)).db.map
      (fun g => g.updated_at) = [10] ∧
    ¬ (5000 : Nat) ≤ 10 := by decide

/-- C1 (amended).  For every valid create request (all five fields
present, parseable `updated_at`, id not already stored), the stored row and
the returned record carry exactly the client-supplied timestamp (after `Z`
normalisation and parsing); the store does not re-stamp it, whatever the
server clock `now` at arrival is. -/
theorem create_stores_client_updated_at
    (parse : String → Option Timestamp) (now : Timestamp) (db : List Goal)
    (b : CreateBody) (i nm : String) (tv cv : Int) (ua : String)
    (t : Timestamp)
    (hid : b.id = some i) (hnm : b.name = some nm)
    (htv : b.target_value = some tv) (hcv : b.current_value = some cv)
    (hua : b.updated_at = some ua)
    (hparse : parse (normalizeZ ua) = some t)
    (hfresh : ∀ g ∈ db, g.id ≠ i) :
    (create_goal parse now true db (some b)).status = 201 ∧
    (create_goal parse now true db (some b)).retGoal =
      some { id := i, name := nm, target_value := tv, current_value := cv,
             updated_at := t } ∧
    (create_goal parse now true db (some b)).db =
      db ++ [{ id := i, name := nm, target_value := tv, current_value := cv,
               updated_at := t }] := by
  have hany : (db.any fun g => g.id = i) = false := by
    rw [List.any_eq_false]
    intro g hg
    simpa using hfresh g hg
  simp [create_goal, hid, hnm, htv, hcv, hua, hparse, hany]

/-- C1 (witness): the amended theorem applied to a concrete valid create
on an empty table, client timestamp parsing to instant 10. -/
theorem create_stores_client_updated_at_witness :
    (create_goal testParse 5000 true [] (some runBody)).status = 201 ∧
    (create_goal testParse 5000 true [] (some runBody)).retGoal =
      some { id := "a1", name := "Run", target_value := 100,
             current_value := 0, updated_at := 10 } :=
  ⟨(create_stores_client_updated_at testParse 5000 [] runBody "a1" "Run"
      100 0 "1970-01-01T00:00:10Z" 10 rfl rfl rfl rfl rfl (by decide)
      (by simp)).1,
   (create_stores_client_updated_at testParse 5000 [] runBody "a1" "Run"
      100 0 "1970-01-01T00:00:10Z" 10 rfl rfl rfl rfl rfl (by decide)
      (by simp)).2.1⟩

/-! ## C2 — sync filtering and ordering -/

/-- C2 (counterexample).  The claim says that with the parameter absent the
lower bound is the epoch, "so the full data set is returned".  But the
query's comparison is strict: a goal created with the client timestamp
exactly at the epoch (which the insert path stores verbatim) is *not*
returned by a parameterless sync, so the full data set is missed. -/
theorem sync_full_data_set_cex :
    (create_goal testParse 50 true [] (some epochBody)).status = 201 ∧
    (create_goal testParse 50 true [] (some epochBody)).db ≠ [] ∧
    (sync_goals testParse 60 true
      (create_goal testParse 50 true [] (some epochBody)).db none).status
      = 200 ∧
    (sync_goals testParse 60 true
      (create_goal testParse 50 true [] (some epochBody)).db none).retGoals
      = [] := by decide

/-- C2 (amended).  For every sync with a parseable non-empty
`last_sync_timestamp` resolving to `ts`, the response is 200 and contains
exactly the goals with `updated_at` strictly greater than `ts`, ordered
ascending by `updated_at`; when the parameter is absent the lower bound is
the epoch, so exactly the goals with `updated_at` strictly after the epoch
are returned (a row stamped at or before the epoch is omitted). -/
theorem sync_returns_sorted_changes
    (parse : String → Option Timestamp) (now : Timestamp) (db : List Goal)
    (s : String) (ts : Timestamp)
    (hs : s ≠ "") (hparse : parse (normalizeZ s) = some ts) :
    (sync_goals parse now true db (some s)).status = 200 ∧
    (sync_goals parse now true db (some s)).retGoals.Perm
      (db.filter fun g => ts < g.updated_at) ∧
    List.Sorted goalLE (sync_goals parse now true db (some s)).retGoals ∧
    (∀ g, g ∈ (sync_goals parse now true db (some s)).retGoals ↔
      g ∈ db ∧ ts < g.updated_at) ∧
    (sync_goals parse now true db none).status = 200 ∧
    (sync_goals parse now true db none).retGoals.Perm
      (db.filter fun g => epoch < g.updated_at) ∧
    List.Sorted goalLE (sync_goals parse now true db none).retGoals ∧
    (∀ g, g ∈ (sync_goals parse now true db none).retGoals ↔
      g ∈ db ∧ epoch < g.updated_at) := by
  have hlb : syncLowerBound parse (some s) = some ts := by
    simp [syncLowerBound, hs, hparse]
  have hlb0 : syncLowerBound parse none = some epoch := rfl
  rw [sync_success_eq parse now db ts (some s) hlb,
    sync_success_eq parse now db epoch none hlb0]
  refine ⟨rfl, List.perm_insertionSort goalLE _,
    List.sorted_insertionSort goalLE _, fun g => mem_sorted_filter ts db g,
    rfl, List.perm_insertionSort goalLE _,
    List.sorted_insertionSort goalLE _, fun g => mem_sorted_filter epoch db g⟩

/-- C2 (witness): the amended theorem applied to a one-row table and a
concrete parameter resolving to the epoch. -/
theorem sync_returns_sorted_changes_witness :
    (sync_goals testParse 99 true [gRun]
      (some "1970-01-01T00:00:00Z")).status = 200 ∧
    (sync_goals testParse 99 true [gRun]
      (some "1970-01-01T00:00:00Z")).retGoals.Perm
      ([gRun].filter fun g => 0 < g.updated_at) :=
  ⟨(sync_returns_sorted_changes testParse 99 [gRun] "1970-01-01T00:00:00Z"
      0 (by decide) (by decide)).1,
   (sync_returns_sorted_changes testParse 99 [gRun] "1970-01-01T00:00:00Z"
      0 (by decide) (by decide)).2.1⟩

/-! ## C3 — server timestamp vs returned rows -/

/-- C3 (counterexample).  A goal created with a client timestamp far in the
future (instant 1000000, stored verbatim by the insert path) is returned by
a sync whose `server_timestamp` is only 6, so the returned
`server_timestamp` is smaller than the largest returned `updated_at`; and a
later sync using that `server_timestamp` as `last_sync_timestamp` returns
the same goal again with no intervening mutation. -/
theorem sync_server_timestamp_cex :
    (create_goal testParse 5 true [] (some futureBody)).status = 201 ∧
    (sync_goals testParse 6 true
      (create_goal testParse 5 true [] (some futureBody)).db
      none).serverTimestamp = some 6 ∧
    (sync_goals testParse 6 true
      (create_goal testParse 5 true [] (some futureBody)).db
      none).retGoals.map (fun g => g.updated_at) = [1000000] ∧
    ¬ (1000000 : Nat) ≤ 6 ∧
    (sync_goals testParse 7 true
      (create_goal testParse 5 true [] (some futureBody)).db
      (some "1970-01-01T00:00:06Z")).retGoals.map (fun g => g.id)
      = ["f1"] := by decide

/-- C3 (amended).  Provided every stored row's `updated_at` is at most the
server clock `now` of the sync (which holds when all rows were stamped by
the store's trigger, but can fail for rows created with client-supplied
future timestamps), every returned goal has `updated_at ≤ now`, the
response's `server_timestamp` is exactly `now` (hence `≥` the largest
returned `updated_at`), and a goal returned by that sync is not returned
again by a later sync whose parameter resolves to `now`, absent further
mutation. -/
theorem sync_cursor_round_trip
    (parse : String → Option Timestamp) (now now2 : Timestamp)
    (db : List Goal) (param : Option String) (s2 : String) (g : Goal)
    (hdb : ∀ g' ∈ db, g'.updated_at ≤ now)
    (hg : g ∈ (sync_goals parse now true db param).retGoals)
    (hs2 : s2 ≠ "") (hp2 : parse (normalizeZ s2) = some now) :
    g.updated_at ≤ now ∧
    (sync_goals parse now true db param).serverTimestamp = some now ∧
    g ∉ (sync_goals parse now2 true db (some s2)).retGoals := by
  have hlb2 : syncLowerBound parse (some s2) = some now := by
    simp [syncLowerBound, hs2, hp2]
  cases hlb : syncLowerBound parse param with
  | none =>
    rw [sync_fail_eq parse now true db param hlb] at hg
    simp at hg
  | some ts =>
    rw [sync_success_eq parse now db ts param hlb] at hg ⊢
    rw [mem_sorted_filter] at hg
    have hle : g.updated_at ≤ now := hdb g hg.1
    refine ⟨hle, rfl, ?_⟩
    rw [sync_success_eq parse now2 db now (some s2) hlb2]
    rw [mem_sorted_filter]
    rintro ⟨-, hgt⟩
    exact absurd hle (Nat.not_le.mpr hgt)

/-- C3 (witness): the amended theorem applied to a one-row table whose row
is stamped at instant 10, synced at server clock 50, then re-synced with a
parameter resolving to 50. -/
theorem sync_cursor_round_trip_witness :
    gRun.updated_at ≤ 50 ∧
    (sync_goals testParse 50 true [gRun] none).serverTimestamp = some 50 ∧
    gRun ∉ (sync_goals testParse 77 true [gRun]
      (some "1970-01-01T00:00:50Z")).retGoals :=
  sync_cursor_round_trip testParse 50 77 [gRun] none
    "1970-01-01T00:00:50Z" gRun (by decide) (by decide) (by decide)
    (by decide)

/-! ## C4 — partial update frame -/

/-- When the body passes all checks and some row matches the id,
`update_goal` commits the conditional update and answers 200 with the
re-stamped row. -/
lemma update_success_eq (parse : String → Option Timestamp)
    (now : Timestamp) (db : List Goal) (i : String) (b : UpdateBody)
    (hb : b.isEmptyDict = false) (hpf : updParseFailed parse b = false)
    (hf : hasUpdatableField b = true)
    (hany : (db.any fun g => g.id = i) = true) :
    update_goal parse now true db i (some b) =
      { status := 200,
        retGoal := (db.find? (fun g => g.id = i)).map (applyUpdate b now),
        db := db.map (fun g => if g.id = i then applyUpdate b now g else g),
        connOpened := true, connClosed := true, queryRan := true } := by
  simp [update_goal, hb, hpf, hf, hany]

/-- C4 (counterexample).  The claim says `updated_at` strictly increases on
every `current_value`-only update of an existing id.  Starting from a row
created with a client timestamp of instant 1000000 (stored verbatim), an
update executed while the server clock reads 6 re-stamps the row to 6 via
the trigger: `updated_at` *decreases* from 1000000 to 6. -/
theorem update_updated_at_increase_cex :
    (create_goal testParse 5 true [] (some futureBody)).db.map
      (fun g => g.updated_at) = [1000000] ∧
    (update_goal testParse 6 true
      (create_goal testParse 5 true [] (some futureBody)).db "f1"
      (some ({ current_value := some 7 } : UpdateBody))).status = 200 ∧
    (update_goal testParse 6 true
      (create_goal testParse 5 true [] (some futureBody)).db "f1"
      (some ({ current_value := some 7 } : UpdateBody))).retGoal.map
      (fun g => g.updated_at) = some 6 ∧
    ¬ (1000000 : Nat) < 6 := by decide

/-- C4 (amended).  For every update of an existing id supplying only
`current_value`, the operation succeeds with 200; the stored and returned
row keeps `name` and `target_value` unchanged, carries the supplied
`current_value`, and has `updated_at` re-stamped to the server clock `now`
by the trigger; rows with other ids are untouched; and `updated_at`
strictly increases provided the row's previous `updated_at` was below `now`
(as is the case whenever it was last stamped by the trigger itself, though
not for client-supplied future timestamps). -/
theorem update_only_current_value
    (parse : String → Option Timestamp) (now : Timestamp) (db : List Goal)
    (i : String) (v : Int) (g : Goal) (e : List String)
    (hfind : db.find? (fun g' => g'.id = i) = some g) :
    (update_goal parse now true db i
      (some { current_value := some v, extra := e })).status = 200 ∧
    (update_goal parse now true db i
      (some { current_value := some v, extra := e })).retGoal =
      some { id := g.id, name := g.name, target_value := g.target_value,
             current_value := v, updated_at := now } ∧
    (∀ h ∈ db, h.id ≠ i → h ∈ (update_goal parse now true db i
      (some { current_value := some v, extra := e })).db) ∧
    (g.updated_at < now → ∃ g', (update_goal parse now true db i
      (some { current_value := some v, extra := e })).retGoal = some g' ∧
      g.updated_at < g'.updated_at) := by
  have hmem : g ∈ db := List.mem_of_find?_eq_some hfind
  have hgi : g.id = i := by simpa using List.find?_some hfind
  have hany : (db.any fun g' => g'.id = i) = true :=
    List.any_eq_true.mpr ⟨g, hmem, by simp [hgi]⟩
  rw [update_success_eq parse now db i { current_value := some v, extra := e }
    (by simp [UpdateBody.isEmptyDict]) rfl (by simp [hasUpdatableField]) hany]
  refine ⟨rfl, ?_, ?_, ?_⟩
  · simp [hfind, applyUpdate]
  · intro h hh hne
    exact List.mem_map.mpr ⟨h, hh, by simp [hne]⟩
  · intro hlt
    exact ⟨applyUpdate { current_value := some v, extra := e } now g,
      by simp [hfind], by simpa [applyUpdate] using hlt⟩

/-- C4 (witness): the amended theorem applied to a one-row table (row
stamped at instant 10) updated at server clock 50 with `current_value = 7`
only. -/
theorem update_only_current_value_witness :
    (update_goal testParse 50 true [gRun] "a1"
      (some { current_value := some 7, extra := [] })).status = 200 ∧
    (update_goal testParse 50 true [gRun] "a1"
      (some { current_value := some 7, extra := [] })).retGoal =
      some { id := gRun.id, name := gRun.name,
             target_value := gRun.target_value, current_value := 7,
             updated_at := 50 } :=
  ⟨(update_only_current_value testParse 50 [gRun] "a1" 7 gRun []
      (by decide)).1,
   (update_only_current_value testParse 50 [gRun] "a1" 7 gRun []
      (by decide)).2.1⟩

/-! ## C5 — duplicate-id create conflict -/

/-- C5 (counterexample).  The claim says the 409 response carries a generic
conflict message, not raw store diagnostics.  But the handler interpolates
the caught `IntegrityError` into the body
(`f"Integrity error: \x7be\x7d"`): two conflicting creates with different
ids produce two *different* messages, each embedding the store's
duplicate-key diagnostic text verbatim. -/
theorem create_conflict_message_cex :
    (create_goal testParse 5000 true [gRun] (some runBody)).status = 409 ∧
    (create_goal testParse 60 true [gEpoch] (some epochBody)).status
      = 409 ∧
    (create_goal testParse 5000 true [gRun] (some runBody)).errMsg ≠
      (create_goal testParse 60 true [gEpoch] (some epochBody)).errMsg ∧
    (create_goal testParse 5000 true [gRun] (some runBody)).errMsg =
      some ("Integrity error: " ++ integrityDiag "a1") := by decide

/-- C5 (amended).  For every create request whose id already exists, the
response is a 409 conflict and the store contents are unchanged (the
transaction is rolled back); the conflict message, however, is
`"Integrity error: "` followed by the store's raw duplicate-key diagnostic
text, not a generic message. -/
theorem create_duplicate_conflict
    (parse : String → Option Timestamp) (now : Timestamp) (db : List Goal)
    (b : CreateBody) (i nm : String) (tv cv : Int) (ua : String)
    (t : Timestamp)
    (hid : b.id = some i) (hnm : b.name = some nm)
    (htv : b.target_value = some tv) (hcv : b.current_value = some cv)
    (hua : b.updated_at = some ua)
    (hparse : parse (normalizeZ ua) = some t)
    (hdup : (db.any fun g => g.id = i) = true) :
    (create_goal parse now true db (some b)).status = 409 ∧
    (create_goal parse now true db (some b)).db = db ∧
    (create_goal parse now true db (some b)).errMsg =
      some ("Integrity error: " ++ integrityDiag i) := by
  simp [create_goal, hid, hnm, htv, hcv, hua, hparse, hdup]

/-- C5 (witness): the amended theorem applied to a concrete duplicate
create against a one-row table already holding id `"a1"`. -/
theorem create_duplicate_conflict_witness :
    (create_goal testParse 5000 true [gRun] (some runBody)).status = 409 ∧
    (create_goal testParse 5000 true [gRun] (some runBody)).db = [gRun] :=
  ⟨(create_duplicate_conflict testParse 5000 [gRun] runBody "a1" "Run"
      100 0 "1970-01-01T00:00:10Z" 10 rfl rfl rfl rfl rfl (by decide)
      (by decide)).1,
   (create_duplicate_conflict testParse 5000 [gRun] runBody "a1" "Run"
      100 0 "1970-01-01T00:00:10Z" 10 rfl rfl rfl rfl rfl (by decide)
      (by decide)).2.1⟩

/-! ## C6 — validation failures and the store -/

/-- C6 (counterexample).  The claim says every request failing input
validation gets a 400 and no connection-dependent store operation is
performed.  But `create_goal` calls `get_db_connection()` *before* looking
at the body: with the store unreachable, a create missing `target_value`
answers 500, not 400; and with the store reachable, the same invalid
request does open a store connection. -/
theorem validation_touches_store_cex :
    (create_goal testParse 9 false [] (some missingBody)).status = 500 ∧
    ¬ (create_goal testParse 9 false [] (some missingBody)).status
      = 400 ∧
    (create_goal testParse 9 true [] (some missingBody)).connOpened
      = true := by decide

/-- C6 (amended).  `sync_goals` validates before any store interaction:
an unparseable parameter yields 400 with the store untouched whatever the
connection state.  `create_goal` and `update_goal` instead acquire a
connection first: with the store reachable, their validation failures
(missing fields on create, no updatable fields on update) yield 400 with
no SQL executed and the table unchanged, but with a connection opened;
with the store unreachable, the same invalid requests yield 500 rather
than 400. -/
theorem validation_failures
    (parse : String → Option Timestamp) (now : Timestamp) (connOk : Bool)
    (db : List Goal) (s : String) (b : CreateBody) (ub : UpdateBody)
    (i : String) :
    (s ≠ "" → parse (normalizeZ s) = none →
      (sync_goals parse now connOk db (some s)).status = 400 ∧
      (sync_goals parse now connOk db (some s)).db = db ∧
      (sync_goals parse now connOk db (some s)).connOpened = false ∧
      (sync_goals parse now connOk db (some s)).queryRan = false) ∧
    (createFieldsPresent b = false →
      (create_goal parse now true db (some b)).status = 400 ∧
      (create_goal parse now true db (some b)).db = db ∧
      (create_goal parse now true db (some b)).queryRan = false ∧
      (create_goal parse now true db (some b)).connOpened = true) ∧
    (createFieldsPresent b = false →
      (create_goal parse now false db (some b)).status = 500) ∧
    (ub.isEmptyDict = false → hasUpdatableField ub = false →
      (update_goal parse now true db i (some ub)).status = 400 ∧
      (update_goal parse now true db i (some ub)).db = db ∧
      (update_goal parse now true db i (some ub)).queryRan = false ∧
      (update_goal parse now true db i (some ub)).connOpened = true) ∧
    (ub.isEmptyDict = false → hasUpdatableField ub = false →
      (update_goal parse now false db i (some ub)).status = 500) := by
  refine ⟨?_, ?_, ?_, ?_, ?_⟩
  · intro hs hp
    have hlb : syncLowerBound parse (some s) = none := by
      simp [syncLowerBound, hs, hp]
    rw [sync_fail_eq parse now connOk db (some s) hlb]
    exact ⟨rfl, rfl, rfl, rfl⟩
  · intro h
    rcases b with ⟨bi, bn, bt, bc, bu⟩
    cases bi <;> cases bn <;> cases bt <;> cases bc <;> cases bu <;>
      simp_all [create_goal, createFieldsPresent]
  · intro _
    exact rfl
  · intro hne hfield
    rcases ub with ⟨un, ut, uc, uu, ue⟩
    cases un <;> cases ut <;> cases uc <;> cases uu <;> cases ue <;>
      simp_all [update_goal, UpdateBody.isEmptyDict, updParseFailed,
        hasUpdatableField]
  · intro _ _
    exact rfl

/-- C6 (witness): the amended theorem applied to concrete invalid
requests: an unparseable sync parameter, a create missing `target_value`
with the store up and with it down, and an update whose body holds only an
unrecognised key, likewise in both connection states. -/
theorem validation_failures_witness :
    (sync_goals testParse 9 true [] (some "garbage")).status = 400 ∧
    (create_goal testParse 9 true [] (some missingBody)).status = 400 ∧
    (create_goal testParse 9 false [] (some missingBody)).status = 500 ∧
    (update_goal testParse 9 true [] "a1"
      (some ({ extra := ["bogus"] } : UpdateBody))).status = 400 ∧
    (update_goal testParse 9 false [] "a1"
      (some ({ extra := ["bogus"] } : UpdateBody))).status = 500 :=
  ⟨((validation_failures testParse 9 true [] "garbage" missingBody
      { extra := ["bogus"] } "a1").1 (by decide) (by decide)).1,
   ((validation_failures testParse 9 true [] "garbage" missingBody
      { extra := ["bogus"] } "a1").2.1 (by decide)).1,
   (validation_failures testParse 9 true [] "garbage" missingBody
      { extra := ["bogus"] } "a1").2.2.1 (by decide),
   ((validation_failures testParse 9 true [] "garbage" missingBody
      { extra := ["bogus"] } "a1").2.2.2.1 (by decide) (by decide)).1,
   (validation_failures testParse 9 true [] "garbage" missingBody
      { extra := ["bogus"] } "a1").2.2.2.2 (by decide) (by decide)⟩

/-! ## C7 — timestamp normalisation and parse failures -/

/-- C7 (counterexample).  The claim says an unparseable timestamp string
yields a 400 validation error (not a 500) on every endpoint.  On
`create_goal` the `ValueError` is caught by the generic `except Exception`
branch, and on `update_goal` it escapes the handler: both answer 500. -/
theorem unparseable_timestamp_status_cex :
    (create_goal testParse 7 true [] (some garbageBody)).status = 500 ∧
    ¬ (create_goal testParse 7 true [] (some garbageBody)).status
      = 400 ∧
    (update_goal testParse 7 true [gRun] "a1"
      (some ({ updated_at := some "not-a-timestamp" } : UpdateBody))).status
      = 500 := by decide

/-- C7 (amended).  On every endpoint a trailing `Z` (case-insensitive) is
normalised to an explicit `+00:00` offset before parsing: each handler's
result depends on the parser only through its value on the normalised
string (first three conjuncts).  An unparseable timestamp, however, yields
400 only on sync; on create it is caught by the generic exception handler
and yields 500, and on update the exception escapes the handler, likewise
yielding 500. -/
theorem timestamp_parsing
    (parse₁ parse₂ : String → Option Timestamp) (now : Timestamp)
    (connOk : Bool) (db : List Goal) (s : String) (b : CreateBody)
    (ub : UpdateBody) (goalId : String) (ua : String) :
    ((s.data.getLast?.map Char.toUpper) = some 'Z' →
      parse₁ (String.mk s.data.dropLast ++ "+00:00") =
        parse₂ (String.mk s.data.dropLast ++ "+00:00") →
      sync_goals parse₁ now connOk db (some s) =
        sync_goals parse₂ now connOk db (some s)) ∧
    (b.updated_at = some s →
      (s.data.getLast?.map Char.toUpper) = some 'Z' →
      parse₁ (String.mk s.data.dropLast ++ "+00:00") =
        parse₂ (String.mk s.data.dropLast ++ "+00:00") →
      create_goal parse₁ now connOk db (some b) =
        create_goal parse₂ now connOk db (some b)) ∧
    (ub.updated_at = some s →
      (s.data.getLast?.map Char.toUpper) = some 'Z' →
      parse₁ (String.mk s.data.dropLast ++ "+00:00") =
        parse₂ (String.mk s.data.dropLast ++ "+00:00") →
      update_goal parse₁ now connOk db goalId (some ub) =
        update_goal parse₂ now connOk db goalId (some ub)) ∧
    (s ≠ "" → parse₁ (normalizeZ s) = none →
      (sync_goals parse₁ now connOk db (some s)).status = 400) ∧
    (createFieldsPresent b = true → b.updated_at = some ua →
      parse₁ (normalizeZ ua) = none →
      (create_goal parse₁ now true db (some b)).status = 500) ∧
    (ub.updated_at = some ua → parse₁ (normalizeZ ua) = none →
      (update_goal parse₁ now true db goalId (some ub)).status = 500) := by
  have hnorm : (s.data.getLast?.map Char.toUpper) = some 'Z' →
      normalizeZ s = String.mk s.data.dropLast ++ "+00:00" := by
    intro hz
    simp [normalizeZ, hz]
  refine ⟨?_, ?_, ?_, ?_, ?_, ?_⟩
  · intro hz hag
    have hs : s ≠ "" := by
      intro he
      subst he
      exact absurd hz (by decide)
    unfold sync_goals
    rw [show syncLowerBound parse₁ (some s) = syncLowerBound parse₂ (some s)
      from by simp [syncLowerBound, hs, hnorm hz, hag]]
  · intro hbu hz hag
    rcases b with ⟨bi, bn, bt, bc, bu⟩
    simp only [CreateBody.updated_at] at hbu
    subst hbu
    cases bi <;> cases bn <;> cases bt <;> cases bc <;>
      simp [create_goal, hnorm hz, hag]
  · intro hbu hz hag
    rcases ub with ⟨un, ut, uc, uu, ue⟩
    simp only [UpdateBody.updated_at] at hbu
    subst hbu
    simp [update_goal, updParseFailed, hnorm hz, hag]
  · intro hs hp
    have hlb : syncLowerBound parse₁ (some s) = none := by
      simp [syncLowerBound, hs, hp]
    rw [sync_fail_eq parse₁ now connOk db (some s) hlb]
  · intro hpres hbu hp
    rcases b with ⟨bi, bn, bt, bc, bu⟩
    simp only [CreateBody.updated_at] at hbu
    subst hbu
    cases bi <;> cases bn <;> cases bt <;> cases bc <;>
      simp_all [create_goal, createFieldsPresent]
  · intro hbu hp
    rcases ub with ⟨un, ut, uc, uu, ue⟩
    simp only [UpdateBody.updated_at] at hbu
    subst hbu
    simp [update_goal, UpdateBody.isEmptyDict, updParseFailed, hp]

/-- C7 (witness): the amended theorem applied twice at concrete inputs: a
`Z`-suffixed parameter on which two parsers agreeing on the normalised
string give identical sync responses, and unparseable strings answered
with 400 on sync but 500 on create and update. -/
theorem timestamp_parsing_witness :
    sync_goals testParse 8 true [] (some "1970-01-01T00:00:10Z") =
      sync_goals (fun _ => some 10) 8 true []
        (some "1970-01-01T00:00:10Z") ∧
    (sync_goals testParse 8 true [] (some "nope")).status = 400 ∧
    (create_goal testParse 8 true [] (some garbageBody)).status = 500 ∧
    (update_goal testParse 8 true [gRun] "a1"
      (some ({ updated_at := some "not-a-timestamp" } : UpdateBody))).status
      = 500 :=
  ⟨(timestamp_parsing testParse (fun _ => some 10) 8 true []
      "1970-01-01T00:00:10Z" garbageBody
      { updated_at := some "not-a-timestamp" } "a1" "not-a-timestamp").1
      (by decide) (by decide),
   (timestamp_parsing testParse testParse 8 true [] "nope" garbageBody
      { updated_at := some "not-a-timestamp" } "a1"
      "not-a-timestamp").2.2.2.1 (by decide) (by decide),
   (timestamp_parsing testParse testParse 8 true [] "nope" garbageBody
      { updated_at := some "not-a-timestamp" } "a1"
      "not-a-timestamp").2.2.2.2.1 (by decide) rfl (by decide),
   (timestamp_parsing testParse testParse 8 true [] "nope" garbageBody
      { updated_at := some "not-a-timestamp" } "a1"
      "not-a-timestamp").2.2.2.2.2 rfl (by decide)⟩

/-! ## C8 — connection release on every exit path -/

/-- C8 (counterexample).  The claim says no path leaks the store
connection.  But `create_goal`'s missing-body return and `update_goal`'s
parse-exception path both happen after `get_db_connection()` and outside
the `try`/`finally`, so the opened connection is never closed. -/
theorem connection_leak_cex :
    (create_goal testParse 9 true [] none).connOpened = true ∧
    (create_goal testParse 9 true [] none).connClosed = false ∧
    (update_goal testParse 9 true [gRun] "a1"
      (some ({ updated_at := some "not-a-timestamp" } : UpdateBody))).connOpened
      = true ∧
    (update_goal testParse 9 true [gRun] "a1"
      (some ({ updated_at := some "not-a-timestamp" } : UpdateBody))).connClosed
      = false := by decide

/-- C8 (amended).  `sync_goals` and `delete_goal` close the connection
exactly when they open one (every path through them is leak-free).
`create_goal` and `update_goal` always open a connection when the store is
reachable, but reach the closing `finally` only when validation passes:
create closes iff the body is present with all five fields; update closes
iff the body is a non-empty object whose supplied `updated_at` (if any)
parses and which carries at least one updatable field.  All other paths
(missing body, missing fields, no-fields body, update's unparseable
timestamp) leave the connection open. -/
theorem connection_release
    (parse : String → Option Timestamp) (now : Timestamp) (connOk : Bool)
    (db : List Goal) (param : Option String) (body : Option CreateBody)
    (ubody : Option UpdateBody) (i : String) :
    ((sync_goals parse now connOk db param).connClosed =
      (sync_goals parse now connOk db param).connOpened) ∧
    ((delete_goal connOk db i).connClosed =
      (delete_goal connOk db i).connOpened) ∧
    ((create_goal parse now true db body).connOpened = true) ∧
    ((create_goal parse now true db body).connClosed =
      (body.map createFieldsPresent).getD false) ∧
    ((update_goal parse now true db i ubody).connOpened = true) ∧
    ((update_goal parse now true db i ubody).connClosed =
      (ubody.map (fun b => !b.isEmptyDict && !updParseFailed parse b &&
        hasUpdatableField b)).getD false) := by
  have hsync : (sync_goals parse now connOk db param).connClosed =
      (sync_goals parse now connOk db param).connOpened := by
    cases hlb : syncLowerBound parse param with
    | none =>
      rw [sync_fail_eq parse now connOk db param hlb]
    | some ts =>
      cases connOk
      · rw [sync_noconn_eq parse now db ts param hlb]
      · rw [sync_success_eq parse now db ts param hlb]
  have hdel : (delete_goal connOk db i).connClosed =
      (delete_goal connOk db i).connOpened := by
    cases connOk
    · rfl
    · by_cases hc : (db.countP fun g => g.id = i) = 0 <;>
        simp [delete_goal, hc]
  have hcreate : (create_goal parse now true db body).connOpened = true ∧
      (create_goal parse now true db body).connClosed =
        (body.map createFieldsPresent).getD false := by
    rcases body with _ | ⟨bi, bn, bt, bc, bu⟩
    · exact ⟨rfl, rfl⟩
    · cases bi <;> cases bn <;> cases bt <;> cases bc <;> cases bu <;>
        simp [create_goal, createFieldsPresent]
      all_goals try split
      all_goals try split
      all_goals first
        | rfl
        | simp_all
  have hupd : (update_goal parse now true db i ubody).connOpened = true ∧
      (update_goal parse now true db i ubody).connClosed =
        (ubody.map (fun b => !b.isEmptyDict && !updParseFailed parse b &&
          hasUpdatableField b)).getD false := by
    rcases ubody with _ | ⟨un, ut, uc, uu, ue⟩
    · exact ⟨rfl, rfl⟩
    · cases un <;> cases ut <;> cases uc <;> cases uu <;> cases ue <;>
        simp [update_goal, UpdateBody.isEmptyDict, updParseFailed,
          hasUpdatableField]
      all_goals try split
      all_goals try split
      all_goals first
        | rfl
        | simp_all [Option.isSome_iff_ne_none]
  exact ⟨hsync, hdel, hcreate.1, hcreate.2, hupd.1, hupd.2⟩

/-! ## C9 — delete idempotence -/

/-- C9 (confirmed).  For every stored goal id, the first delete answers 204
and removes exactly the matching rows (non-matching rows survive), and a
second delete of the same id answers 404 and leaves the table unchanged. -/
theorem delete_twice
    (db : List Goal) (i : String) (g : Goal) (hg : g ∈ db)
    (hid : g.id = i) :
    (delete_goal true db i).status = 204 ∧
    (∀ h ∈ (delete_goal true db i).db, h.id ≠ i) ∧
    (∀ h ∈ db, h.id ≠ i → h ∈ (delete_goal true db i).db) ∧
    (delete_goal true (delete_goal true db i).db i).status = 404 ∧
    (delete_goal true (delete_goal true db i).db i).db =
      (delete_goal true db i).db := by
  have hc : ¬ (db.countP fun g' => g'.id = i) = 0 := by
    have hpos : 0 < db.countP fun g' => g'.id = i :=
      List.countP_pos_iff.mpr ⟨g, hg, by simp [hid]⟩
    omega
  have h1 : delete_goal true db i =
      { status := 204, db := db.filter fun g' => ¬ g'.id = i,
        connOpened := true, connClosed := true, queryRan := true } := by
    simp [delete_goal, hc]
  have hrem : ∀ h ∈ db.filter (fun g' => ¬ g'.id = i), h.id ≠ i := by
    intro h hh
    simpa using (List.mem_filter.mp hh).2
  have hc2 : (db.filter fun g' => ¬ g'.id = i).countP
      (fun g' => g'.id = i) = 0 :=
    List.countP_eq_zero.mpr (fun a ha => by simpa using hrem a ha)
  have h2 : delete_goal true (db.filter fun g' => ¬ g'.id = i) i =
      { status := 404, errMsg := some "Goal not found",
        db := db.filter fun g' => ¬ g'.id = i,
        connOpened := true, connClosed := true, queryRan := true } := by
    simp [delete_goal, hc2]
  rw [h1]
  refine ⟨rfl, hrem, ?_, ?_, ?_⟩
  · intro h hh hne
    exact List.mem_filter.mpr ⟨hh, by simpa using hne⟩
  · rw [h2]
  · rw [h2]

/-- C9 (witness): the theorem applied to a one-row table holding id
`"a1"`: 204 then 404, with the table left empty. -/
theorem delete_twice_witness :
    (delete_goal true [gRun] "a1").status = 204 ∧
    (delete_goal true (delete_goal true [gRun] "a1").db "a1").status
      = 404 ∧
    (delete_goal true (delete_goal true [gRun] "a1").db "a1").db =
      (delete_goal true [gRun] "a1").db :=
  ⟨(delete_twice [gRun] "a1" gRun (by simp) rfl).1,
   (delete_twice [gRun] "a1" gRun (by simp) rfl).2.2.2.1,
   (delete_twice [gRun] "a1" gRun (by simp) rfl).2.2.2.2⟩

/-! ## C10 — unknown update fields -/

/-- The conditional update built from the allowed fields reads nothing
outside them, so keys beyond `allowed_fields` cannot reach the SQL. -/
lemma applyUpdate_ignores_extra (n : Option String) (t c : Option Int)
    (u : Option String) (e : List String) :
    applyUpdate ⟨n, t, c, u, e⟩ = applyUpdate ⟨n, t, c, u, []⟩ := rfl

/-- C10 (confirmed).  For every update request, keys outside
`allowed_fields = [name, target_value, current_value, updated_at]` are
silently ignored: the response status, the returned record, the resulting
table and whether any SQL ran are all unchanged when the unrecognised keys
are dropped (only the 400 error message's wording can differ, between the
empty-body and the no-fields variant).  A non-empty body containing only
unrecognised keys is rejected with 400 (no-fields) without executing any
update, leaving the table unchanged. -/
theorem update_ignores_unknown_fields
    (parse : String → Option Timestamp) (now : Timestamp) (connOk : Bool)
    (db : List Goal) (i : String) (b : UpdateBody) (e : List String) :
    ((update_goal parse now connOk db i (some { b with extra := e })).status =
      (update_goal parse now connOk db i (some { b with extra := [] })).status ∧
     (update_goal parse now connOk db i (some { b with extra := e })).db =
      (update_goal parse now connOk db i (some { b with extra := [] })).db ∧
     (update_goal parse now connOk db i (some { b with extra := e })).retGoal =
      (update_goal parse now connOk db i (some { b with extra := [] })).retGoal ∧
     (update_goal parse now connOk db i (some { b with extra := e })).queryRan =
      (update_goal parse now connOk db i (some { b with extra := [] })).queryRan) ∧
    (e ≠ [] → b.name = none → b.target_value = none →
     b.current_value = none → b.updated_at = none →
      (update_goal parse now true db i
        (some { b with extra := e })).status = 400 ∧
      (update_goal parse now true db i
        (some { b with extra := e })).db = db ∧
      (update_goal parse now true db i
        (some { b with extra := e })).retGoal = none ∧
      (update_goal parse now true db i
        (some { b with extra := e })).queryRan = false) := by
  obtain ⟨bn, bt, bc, bu, be⟩ := b
  constructor
  · cases bn <;> cases bt <;> cases bc <;> cases bu <;> cases e <;>
      cases connOk <;>
      simp [update_goal, UpdateBody.isEmptyDict, updParseFailed,
        hasUpdatableField, applyUpdate_ignores_extra]
  · intro he hn ht hc2 hu
    simp only at hn ht hc2 hu
    subst hn ht hc2 hu
    cases e with
    | nil => exact absurd rfl he
    | cons x xs =>
      simp [update_goal, UpdateBody.isEmptyDict, updParseFailed,
        hasUpdatableField]

/-- C10 (witness): the theorem applied to a concrete body holding only the
unrecognised key `"unknown_key"` against a one-row table: 400, no update
executed, table unchanged. -/
theorem update_ignores_unknown_fields_witness :
    (update_goal testParse 9 true [gRun] "a1"
      (some ({ extra := ["unknown_key"] } : UpdateBody))).status = 400 ∧
    (update_goal testParse 9 true [gRun] "a1"
      (some ({ extra := ["unknown_key"] } : UpdateBody))).db = [gRun] ∧
    (update_goal testParse 9 true [gRun] "a1"
      (some ({ extra := ["unknown_key"] } : UpdateBody))).retGoal = none ∧
    (update_goal testParse 9 true [gRun] "a1"
      (some ({ extra := ["unknown_key"] } : UpdateBody))).queryRan
      = false :=
  (update_ignores_unknown_fields testParse 9 true [gRun] "a1" {}
    ["unknown_key"]).2 (by decide) rfl rfl rfl rfl
